import Mathlib

/-!
Shallow embedding of the concurrent tweet-search notebook
(src/python-asyncio/python_asyncio.ipynb).

The notebook defines a query-URL builder (gen_query_url), a single-query
fetcher that returns the whole parsed response body
(fetch_tweets_coroutine), a single-query fetcher that extracts the
"results" field and wraps each record in the external Tweet parser
(fetch_tweets_fancy), and a concurrent dispatcher (collect_queries) that
starts one fetch task per query under a single shared client session and
awaits asyncio.gather over them; its call site flattens the per-query
result lists.

The network is modelled as an environment mapping each request URL to the
outcome of response.json() — a failure or a parsed body — and the order in
which responses arrive is an explicit list of task positions, so gather
semantics can be stated for every arrival order.  Side effects (session
acquisition and release, outbound calls) are threaded through an explicit
trace, mirroring the scoped semantics of the async with blocks.
-/

/-- A raw result record returned by the remote endpoint.  Its internal
schema is owned by the external API, so it is modelled as an opaque
identifier. -/
abbrev RawResult := Nat

/-- A parsed response body (the value of response.json()), modelled as an
association list from JSON field names to lists of raw records. -/
abbrev Body := List (String × List RawResult)

/-- The Tweet wrapper from the external tweet_parser library; the notebook
only passes raw records through to it, so it is modelled as an opaque
wrapper. -/
structure Tweet where
  raw : RawResult
deriving DecidableEq, Repr

/-- Failure kinds of one fetch: connection or timeout failures, a
non-success status or unparsable body, and a missing "results" field
(KeyError on the subscript in the source). -/
inductive Err where
  | network
  | protocol
  | schema
deriving DecidableEq, Repr

instance {ε α : Type} [DecidableEq ε] [DecidableEq α] : DecidableEq (Except ε α) := fun a b =>
  match a, b with
  | Except.ok x, Except.ok y =>
    if h : x = y then isTrue (by rw [h]) else isFalse (by intro hh; cases hh; exact h rfl)
  | Except.ok _, Except.error _ => isFalse (by intro hh; cases hh)
  | Except.error _, Except.ok _ => isFalse (by intro hh; cases hh)
  | Except.error e, Except.error f =>
    if h : e = f then isTrue (by rw [h]) else isFalse (by intro hh; cases hh; exact h rfl)

/-- The network environment: what response.json() produces for each request
URL — either a failure (connection, timeout, bad status, unparsable body)
or a parsed body.  Each dispatch requests a given URL at most once, so the
environment is a function of the URL. -/
abbrev Net := String → Except Err Body

/-- Effect trace of one embedded call: how many connection sessions it
acquired and released, and how many outbound network calls it issued. -/
structure Trace where
  acquires : Nat
  releases : Nat
  calls : Nat
deriving DecidableEq, Repr

/-- Helper for Python str.split() with no argument: split on runs of
whitespace, discarding empty pieces; cur carries the current word
reversed. -/
def wsSplitAux : List Char → List Char → List String
  | [], cur => if cur.isEmpty then [] else [String.mk cur.reverse]
  | c :: rest, cur =>
    if c.isWhitespace then
      if cur.isEmpty then wsSplitAux rest [] else String.mk cur.reverse :: wsSplitAux rest []
    else
      wsSplitAux rest (c :: cur)

/-- Python terms.split() from the source: whitespace splitting with empty
pieces discarded. -/
def pySplit (s : String) : List String := wsSplitAux s.data []

/-- The terms argument of gen_query_url: the source accepts either a single
string (to be split on whitespace via the isinstance branch) or a list of
term strings. -/
inductive Terms where
  | str (s : String)
  | list (l : List String)

/-- gen_query_url from the source:
if isinstance(terms, str): terms = terms.split();
return ''.join([url, "query=", "%20".join(terms),
"&maxResults=\x7b\x7d".format(max_results)]).
The source defaults max_results to 100; the default is passed explicitly
here. -/
def gen_query_url (url : String) (terms : Terms) (max_results : Nat) : String :=
  let ts := match terms with
    | Terms.str s => pySplit s
    | Terms.list l => l
  String.join [url, "query=", String.intercalate "%20" ts,
    "&maxResults=" ++ toString max_results]

/-- Effect-threaded embedding of gen_query_url: every operation in the
source body (isinstance, str.split, str.join, str.format) is pure, so the
embedded call leaves the ambient trace unchanged and its output depends
only on the arguments. -/
def gen_query_url_eff (t : Trace) (url : String) (terms : Terms) (max_results : Nat) :
    Trace × String :=
  (t, gen_query_url url terms max_results)

/-- fetch_tweets_coroutine from the source: opens its own client session,
issues one request, and returns the whole parsed response body
(return await response.json()); no field is extracted inside it (the call
site subscripts the result with ["results"] afterwards). -/
def fetch_tweets_coroutine (env : Net) (t : Trace) (url : String) :
    Trace × Except Err Body :=
  let t1 := { t with acquires := t.acquires + 1, calls := t.calls + 1 }
  let res := env url
  ({ t1 with releases := t1.releases + 1 }, res)

/-- fetch_tweets_fancy from the source: issues one request on the shared
session, awaits response.json(), and returns [Tweet(t) for t in
_json["results"]]; the subscript raises KeyError when the field is absent
(modelled as Err.schema), and any aiohttp failure propagates as is. -/
def fetch_tweets_fancy (env : Net) (t : Trace) (url : String) :
    Trace × Except Err (List Tweet) :=
  let t1 := { t with calls := t.calls + 1 }
  match env url with
  | Except.error e => (t1, Except.error e)
  | Except.ok _json =>
    match _json.lookup "results" with
    | none => (t1, Except.error Err.schema)
    | some rs => (t1, Except.ok (rs.map Tweet.mk))

/-- The pure outcome of one fetch task for a given URL (fetch_tweets_fancy
with the trace part stripped). -/
def fetch_outcome (env : Net) (url : String) : Except Err (List Tweet) :=
  (fetch_tweets_fancy env (Trace.mk 0 0 0) url).2

/-- The task outcomes of a batch, indexed by submission position. -/
def taskOutcomes (env : Net) (queries : List String) : List (Except Err (List Tweet)) :=
  queries.map (fetch_outcome env)

/-- The first failure among the gathered tasks in the order the responses
arrive: asyncio.gather resumes the awaiting coroutine with the exception of
the earliest-completing failed task.  arrival lists task positions in
arrival order. -/
def firstError (tasks : List (Except Err (List Tweet))) : List Nat → Option Err
  | [] => none
  | i :: rest =>
    match tasks.get? i with
    | some (Except.error e) => some e
    | _ => firstError tasks rest

/-- The result value of a completed task (used only when no task failed). -/
def getOk : Except Err (List Tweet) → List Tweet
  | Except.ok r => r
  | Except.error _ => []

/-- asyncio.gather(*tasks): waits until every task has completed or failed;
if none failed, it returns the task results in submission (positional)
order, independent of arrival order; otherwise it raises the
earliest-arriving failure. -/
def gather (tasks : List (Except Err (List Tweet))) (arrival : List Nat) :
    Except Err (List (List Tweet)) :=
  match firstError tasks arrival with
  | some e => Except.error e
  | none => Except.ok (tasks.map getOk)

/-- collect_queries from the source: opens one shared client session
(async with aiohttp.ClientSession()), starts a fetch_tweets_fancy task per
query in submission order (ensure_future inside the for loop), awaits
asyncio.gather over the tasks, and returns the per-query responses.  The
async with block releases the session on every exit path, so the release
is unconditional in the embedding. -/
def collect_queries (env : Net) (arrival : List Nat) (t0 : Trace) (queries : List String) :
    Trace × Except Err (List (List Tweet)) :=
  let t1 : Trace := { t0 with acquires := t0.acquires + 1 }
  let st := queries.foldl
    (fun acc query =>
      let task := fetch_tweets_fancy env acc.1 query
      (task.1, acc.2 ++ [task.2]))
    (t1, ([] : List (Except Err (List Tweet))))
  let responses := gather st.2 arrival
  ({ st.1 with releases := st.1.releases + 1 }, responses)

/-- The dispatcher as invoked at its call site: run collect_queries to
completion and flatten the per-query result lists with
itertools.chain.from_iterable. -/
def dispatch_queries (env : Net) (arrival : List Nat) (t0 : Trace) (queries : List String) :
    Trace × Except Err (List Tweet) :=
  let r := collect_queries env arrival t0 queries
  (r.1, r.2.map List.flatten)

/-! ### Helper lemmas about the Query Builder -/

lemma string_join_four (a b c d : String) : String.join [a, b, c, d] = a ++ b ++ c ++ d := by
  show "" ++ a ++ b ++ c ++ d = a ++ b ++ c ++ d
  rw [String.empty_append]

lemma query_amp_literal : "query=" ++ "&maxResults=" = "query=&maxResults=" := rfl

lemma gen_query_url_list (E : String) (T : List String) (M : Nat) :
    gen_query_url E (Terms.list T) M
      = E ++ "query=" ++ String.intercalate "%20" T ++ "&maxResults=" ++ toString M := by
  show String.join [E, "query=", String.intercalate "%20" T, "&maxResults=" ++ toString M] = _
  rw [string_join_four, ← String.append_assoc]

lemma gen_query_url_nil (E : String) (M : Nat) :
    gen_query_url E (Terms.list []) M = E ++ "query=&maxResults=" ++ toString M := by
  have h : gen_query_url E (Terms.list []) M
      = String.join [E, "query=", "", "&maxResults=" ++ toString M] := rfl
  rw [h, string_join_four, String.append_empty, ← String.append_assoc,
    String.append_assoc E "query=" "&maxResults=", query_amp_literal]

lemma wsSplitAux_all_ws (l : List Char) (h : ∀ c ∈ l, c.isWhitespace = true) :
    wsSplitAux l [] = [] := by
  induction l with
  | nil => rfl
  | cons c rest ih =>
    have hc : c.isWhitespace = true := h c (List.mem_cons_self c rest)
    simp only [wsSplitAux, hc, if_true, List.isEmpty_nil]
    exact ih fun x hx => h x (List.mem_cons_of_mem c hx)

lemma pySplit_all_ws (S : String) (h : ∀ c ∈ S.data, c.isWhitespace = true) :
    pySplit S = [] :=
  wsSplitAux_all_ws S.data h

/-! ### Query Builder claims -/

/-- Claim C3: for every base endpoint E, term sequence T and positive M, the
Query Builder returns exactly E followed by "query=", T joined by "%20",
"&maxResults=" and the decimal rendering of M, preserving term order; in
particular the concrete scenario from the spec holds. -/
theorem queryBuilder_output (E : String) (T : List String) (M : Nat) (hM : 0 < M) :
    gen_query_url E (Terms.list T) M
      = E ++ "query=" ++ String.intercalate "%20" T ++ "&maxResults=" ++ toString M ∧
    gen_query_url "https://x/?" (Terms.list ["just", "bought", "a", "house"]) 100
      = "https://x/?query=just%20bought%20a%20house&maxResults=100" :=
  ⟨gen_query_url_list E T M, rfl⟩

theorem queryBuilder_output_witness :
    gen_query_url "https://x/?" (Terms.list ["just", "bought", "a", "house"]) 100
      = "https://x/?" ++ "query="
        ++ String.intercalate "%20" ["just", "bought", "a", "house"]
        ++ "&maxResults=" ++ toString 100 ∧
    gen_query_url "https://x/?" (Terms.list ["just", "bought", "a", "house"]) 100
      = "https://x/?query=just%20bought%20a%20house&maxResults=100" :=
  queryBuilder_output "https://x/?" ["just", "bought", "a", "house"] 100 (by decide)

/-- Claim C7: calling the Query Builder with a single string yields the same
output as calling it with the sequence obtained by splitting that string
on whitespace (the isinstance branch of the source). -/
theorem queryBuilder_split_agrees (E S : String) (M : Nat) (hM : 0 < M) :
    gen_query_url E (Terms.str S) M = gen_query_url E (Terms.list (pySplit S)) M :=
  rfl

theorem queryBuilder_split_agrees_witness :
    gen_query_url "https://x/?" (Terms.str "just bought a house") 100
      = gen_query_url "https://x/?" (Terms.list (pySplit "just bought a house")) 100 :=
  queryBuilder_split_agrees "https://x/?" "just bought a house" 100 (by decide)

/-- Claim C8: the Query Builder is pure and deterministic: its effect-threaded
embedding leaves any ambient trace unchanged, its output does not depend on
the ambient trace, and it agrees with the pure function on equal
arguments. -/
theorem queryBuilder_pure (t1 t2 : Trace) (url : String) (terms : Terms) (M : Nat) :
    (gen_query_url_eff t1 url terms M).1 = t1 ∧
    (gen_query_url_eff t1 url terms M).2 = (gen_query_url_eff t2 url terms M).2 ∧
    (gen_query_url_eff t1 url terms M).2 = gen_query_url url terms M :=
  ⟨rfl, rfl, rfl⟩

/-- Claim C9: each term is inserted verbatim — a single term appears unencoded
between "query=" and "&maxResults=" — and on concrete terms containing a
literal space, "&" or "%" those characters reach the output unencoded; only
the separator between terms is the encoded space. -/
theorem queryBuilder_verbatim :
    (∀ (E t : String) (M : Nat),
      gen_query_url E (Terms.list [t]) M
        = E ++ "query=" ++ t ++ "&maxResults=" ++ toString M) ∧
    gen_query_url "https://x/?" (Terms.list ["a b", "c&d", "e%f"]) 9
      = "https://x/?query=a b%20c&d%20e%f&maxResults=9" :=
  ⟨fun E t M => gen_query_url_list E [t] M, rfl⟩

/-- Claim C10: with an empty term sequence, or a whitespace-only string (which
splits to the empty sequence), the Query Builder raises no error and
returns exactly E ++ "query=&maxResults=" ++ M, with nothing between
"query=" and "&". -/
theorem queryBuilder_empty_terms (E S : String) (M : Nat) (hM : 0 < M)
    (hS : ∀ c ∈ S.data, c.isWhitespace = true) :
    gen_query_url E (Terms.list []) M = E ++ "query=&maxResults=" ++ toString M ∧
    gen_query_url E (Terms.str S) M = E ++ "query=&maxResults=" ++ toString M := by
  refine ⟨gen_query_url_nil E M, ?_⟩
  have hsplit : gen_query_url E (Terms.str S) M = gen_query_url E (Terms.list (pySplit S)) M :=
    rfl
  rw [hsplit, pySplit_all_ws S hS]
  exact gen_query_url_nil E M

theorem queryBuilder_empty_terms_witness :
    gen_query_url "https://x/?" (Terms.list []) 3
      = "https://x/?" ++ "query=&maxResults=" ++ toString 3 ∧
    gen_query_url "https://x/?" (Terms.str "  \t ") 3
      = "https://x/?" ++ "query=&maxResults=" ++ toString 3 :=
  queryBuilder_empty_terms "https://x/?" "  \t " 3 (by decide) (by decide)

/-! ### Helper lemmas about the dispatcher -/

lemma fetch_tweets_fancy_eq (env : Net) (t : Trace) (url : String) :
    fetch_tweets_fancy env t url
      = ({ t with calls := t.calls + 1 }, fetch_outcome env url) := by
  cases h : env url with
  | error e => simp [fetch_tweets_fancy, fetch_outcome, h]
  | ok body =>
    cases hl : body.lookup "results" with
    | none => simp [fetch_tweets_fancy, fetch_outcome, h, hl]
    | some rs => simp [fetch_tweets_fancy, fetch_outcome, h, hl]

lemma collect_queries_loop (env : Net) (queries : List String) :
    ∀ (t : Trace) (acc : List (Except Err (List Tweet))),
    queries.foldl
      (fun acc query =>
        let task := fetch_tweets_fancy env acc.1 query
        (task.1, acc.2 ++ [task.2]))
      (t, acc)
    = ({ t with calls := t.calls + queries.length }, acc ++ taskOutcomes env queries) := by
  induction queries with
  | nil => intro t acc; simp [taskOutcomes]
  | cons q rest ih =>
    intro t acc
    rw [List.foldl_cons]
    have hstep : (let task := fetch_tweets_fancy env (t, acc).1 q
        (task.1, (t, acc).2 ++ [task.2]))
        = ({ t with calls := t.calls + 1 }, acc ++ [fetch_outcome env q]) := by
      simp [fetch_tweets_fancy_eq]
    rw [hstep, ih]
    simp [taskOutcomes, List.append_assoc, Nat.add_assoc, Nat.add_comm 1 rest.length]

lemma collect_queries_spec (env : Net) (arrival : List Nat) (t0 : Trace)
    (queries : List String) :
    collect_queries env arrival t0 queries
      = (Trace.mk (t0.acquires + 1) (t0.releases + 1) (t0.calls + queries.length),
         gather (taskOutcomes env queries) arrival) := by
  simp only [collect_queries]
  rw [collect_queries_loop]
  simp

lemma firstError_eq_none (tasks : List (Except Err (List Tweet))) (arrival : List Nat)
    (h : ∀ i e, tasks.get? i ≠ some (Except.error e)) :
    firstError tasks arrival = none := by
  induction arrival with
  | nil => rfl
  | cons j rest ih =>
    rw [firstError]
    cases hj : tasks.get? j with
    | none => exact ih
    | some o =>
      cases o with
      | ok r => exact ih
      | error e => exact absurd hj (h j e)

lemma firstError_mem_error (tasks : List (Except Err (List Tweet))) (arrival : List Nat)
    (i : Nat) (e : Err) (hmem : i ∈ arrival)
    (hi : tasks.get? i = some (Except.error e)) :
    ∃ f, firstError tasks arrival = some f := by
  induction arrival with
  | nil => exact absurd hmem (List.not_mem_nil i)
  | cons j rest ih =>
    rw [firstError]
    cases hj : tasks.get? j with
    | none =>
      rcases List.mem_cons.mp hmem with h1 | h1
      · rw [h1, hj] at hi; exact Option.noConfusion hi
      · exact ih h1
    | some o =>
      cases o with
      | error f => exact ⟨f, rfl⟩
      | ok r =>
        rcases List.mem_cons.mp hmem with h1 | h1
        · rw [h1, hj] at hi; simp at hi
        · exact ih h1

/-! ### Dispatcher claims -/

/-- Claim C1: for every non-empty batch of queries whose fetches all succeed, and
for every order in which the network responses arrive, the dispatcher
returns each query's result set in submission (positional) order, and the
flattened aggregate is the concatenation of the per-query result sets in
submission order. -/
theorem dispatcher_preserves_submission_order (env : Net) (arrival : List Nat) (t0 : Trace)
    (queries : List String) (R : String → List Tweet)
    (hne : queries ≠ [])
    (hperm : arrival.Perm (List.range queries.length))
    (hok : ∀ q ∈ queries, fetch_outcome env q = Except.ok (R q)) :
    (collect_queries env arrival t0 queries).2 = Except.ok (queries.map R) ∧
    (dispatch_queries env arrival t0 queries).2 = Except.ok (queries.map R).flatten := by
  have hnone : firstError (taskOutcomes env queries) arrival = none := by
    apply firstError_eq_none
    intro i e hie
    have hmem : (Except.error e : Except Err (List Tweet)) ∈ taskOutcomes env queries :=
      List.get?_mem hie
    rcases List.mem_map.mp hmem with ⟨q, hq, hqe⟩
    rw [hok q hq] at hqe
    exact Except.noConfusion hqe
  have hgather : gather (taskOutcomes env queries) arrival = Except.ok (queries.map R) := by
    unfold gather
    rw [hnone]
    show Except.ok ((taskOutcomes env queries).map getOk) = Except.ok (queries.map R)
    congr 1
    unfold taskOutcomes
    rw [List.map_map]
    apply List.map_congr_left
    intro q hq
    simp [Function.comp, getOk, hok q hq]
  constructor
  · rw [collect_queries_spec]
    exact hgather
  · unfold dispatch_queries
    rw [collect_queries_spec]
    simp [hgather, Except.map]

def envW : Net := fun u =>
  if u = "q1" then Except.ok [("results", [1])]
  else if u = "q2" then Except.ok [("results", [2, 3])]
  else Except.ok [("results", [4])]

def resW : String → List Tweet := fun u =>
  if u = "q1" then [Tweet.mk 1]
  else if u = "q2" then [Tweet.mk 2, Tweet.mk 3]
  else [Tweet.mk 4]

theorem dispatcher_preserves_submission_order_witness :
    (collect_queries envW [2, 0, 1] (Trace.mk 0 0 0) ["q1", "q2", "q3"]).2
      = Except.ok (["q1", "q2", "q3"].map resW) ∧
    (dispatch_queries envW [2, 0, 1] (Trace.mk 0 0 0) ["q1", "q2", "q3"]).2
      = Except.ok (["q1", "q2", "q3"].map resW).flatten :=
  dispatcher_preserves_submission_order envW [2, 0, 1] (Trace.mk 0 0 0)
    ["q1", "q2", "q3"] resW (by decide) (by decide) (by decide)

/-- Claim C2: for every batch of at least two queries in which some fetch fails,
and for every arrival order, the dispatcher call fails as a whole: the
earliest-arriving failure's error propagates and no partial aggregate is
returned. -/
theorem dispatcher_fails_whole_batch (env : Net) (arrival : List Nat) (t0 : Trace)
    (queries : List String)
    (hN : 2 ≤ queries.length)
    (hperm : arrival.Perm (List.range queries.length))
    (hfail : ∃ i e, (taskOutcomes env queries).get? i = some (Except.error e)) :
    ∃ f, firstError (taskOutcomes env queries) arrival = some f ∧
      (collect_queries env arrival t0 queries).2 = Except.error f ∧
      (dispatch_queries env arrival t0 queries).2 = Except.error f := by
  rcases hfail with ⟨i, e, hi⟩
  have hlen : i < queries.length := by
    rcases List.get?_eq_some.mp hi with ⟨h, _⟩
    simpa [taskOutcomes] using h
  have hmemArr : i ∈ arrival := hperm.mem_iff.mpr (List.mem_range.mpr hlen)
  rcases firstError_mem_error (taskOutcomes env queries) arrival i e hmemArr hi with ⟨f, hf⟩
  refine ⟨f, hf, ?_, ?_⟩
  · rw [collect_queries_spec]
    simp [gather, hf]
  · unfold dispatch_queries
    rw [collect_queries_spec]
    simp [gather, hf, Except.map]

def envF : Net := fun u =>
  if u = "q2" then Except.error Err.network else Except.ok [("results", [1])]

theorem dispatcher_fails_whole_batch_witness :
    ∃ f, firstError (taskOutcomes envF ["q1", "q2", "q3"]) [1, 0, 2] = some f ∧
      (collect_queries envF [1, 0, 2] (Trace.mk 0 0 0) ["q1", "q2", "q3"]).2
        = Except.error f ∧
      (dispatch_queries envF [1, 0, 2] (Trace.mk 0 0 0) ["q1", "q2", "q3"]).2
        = Except.error f :=
  dispatcher_fails_whole_batch envF [1, 0, 2] (Trace.mk 0 0 0) ["q1", "q2", "q3"]
    (by decide) (by decide) ⟨1, Err.network, by decide⟩

/-- Claim C4: for every dispatch call — whatever the environment, so whether all
fetches succeed, some fail, or all fail — the shared connection session is
acquired exactly once and released exactly once. -/
theorem dispatcher_session_scoped (env : Net) (arrival : List Nat) (t0 : Trace)
    (queries : List String) :
    (collect_queries env arrival t0 queries).1.acquires = t0.acquires + 1 ∧
    (collect_queries env arrival t0 queries).1.releases = t0.releases + 1 := by
  rw [collect_queries_spec]
  exact ⟨rfl, rfl⟩

/-- Claim C5: dispatching the empty batch returns the empty aggregate and issues
zero outbound network calls. -/
theorem dispatcher_empty_batch (env : Net) (arrival : List Nat) (t0 : Trace) :
    (collect_queries env arrival t0 []).2 = Except.ok [] ∧
    (dispatch_queries env arrival t0 []).2 = Except.ok [] ∧
    (collect_queries env arrival t0 []).1.calls = t0.calls := by
  have hnone : firstError ([] : List (Except Err (List Tweet))) arrival = none := by
    apply firstError_eq_none
    intro i e
    simp
  refine ⟨?_, ?_, ?_⟩
  · rw [collect_queries_spec]
    simp [gather, taskOutcomes, hnone]
  · unfold dispatch_queries
    rw [collect_queries_spec]
    simp [gather, taskOutcomes, hnone, Except.map]
  · rw [collect_queries_spec]
    rfl

/-! ### Single-Query Fetcher claim -/

def envNoResults : Net := fun _ => Except.ok [("foo", [1])]

/-- Claim C6 counterexample: fetch_tweets_coroutine — one of the two fetchers the
claim covers — returns the whole parsed body, and on a body with no
"results" field it succeeds instead of failing with a SchemaError. -/
theorem fetcher_whole_body_counterexample :
    (fetch_tweets_coroutine envNoResults (Trace.mk 0 0 0) "u").2
      = Except.ok [("foo", [1])] ∧
    (fetch_tweets_coroutine envNoResults (Trace.mk 0 0 0) "u").2
      ≠ Except.error Err.schema :=
  ⟨rfl, by decide⟩

/-- Claim C6 amended: for every well-formed response, fetch_tweets_fancy returns
the records extracted from the body's "results" field (each wrapped by the
external Tweet parser) and fails with a SchemaError when that field is
absent; fetch_tweets_coroutine, by contrast, returns the whole parsed body
unconditionally — the "results" extraction for it happens at its call
site. -/
theorem fetcher_results_extraction (env : Net) (t : Trace) (url : String) (body : Body)
    (h : env url = Except.ok body) :
    (fetch_tweets_coroutine env t url).2 = Except.ok body ∧
    (body.lookup "results" = none →
      (fetch_tweets_fancy env t url).2 = Except.error Err.schema) ∧
    (∀ rs, body.lookup "results" = some rs →
      (fetch_tweets_fancy env t url).2 = Except.ok (rs.map Tweet.mk)) := by
  refine ⟨?_, ?_, ?_⟩
  · simp [fetch_tweets_coroutine, h]
  · intro hl
    simp [fetch_tweets_fancy, h, hl]
  · intro rs hl
    simp [fetch_tweets_fancy, h, hl]

theorem fetcher_results_extraction_witness :
    (fetch_tweets_coroutine envNoResults (Trace.mk 0 0 0) "u").2
      = Except.ok [("foo", [1])] ∧
    (([("foo", [1])] : Body).lookup "results" = none →
      (fetch_tweets_fancy envNoResults (Trace.mk 0 0 0) "u").2
        = Except.error Err.schema) ∧
    (∀ rs, ([("foo", [1])] : Body).lookup "results" = some rs →
      (fetch_tweets_fancy envNoResults (Trace.mk 0 0 0) "u").2
        = Except.ok (rs.map Tweet.mk)) :=
  fetcher_results_extraction envNoResults (Trace.mk 0 0 0) "u" [("foo", [1])] rfl
